import Mathlib

/-!
Verification development for `scripts/daily_blog.js`, the single-run blog
publishing pipeline (naming deriver, content synthesizer with fallback,
template mutator, index mutator, orchestrator).

The markup documents handled by cheerio are embedded as ordered trees of
element and text nodes (`DomNode` / `DomForest`).  The cheerio selectors the
script uses inspect only an element's tag and attributes, so selector
predicates have type `String → List (String × String) → Bool` (tag, attrs);
text nodes never match a selector.  Mutating selector operations
(`.text`, `.attr`, `.empty` + `.append`, `.prepend`, `.html`) are embedded as
structural tree transformations below, one per cheerio idiom.

External collaborators (file system, HTTP image fetch, git, the current date,
cheerio's HTML fragment parser and the random topic pick) are modelled as
inputs of the orchestrator (`RunEnv`).
-/

mutual
/-- A node of a markup document: a text node, or an element with a tag,
an attribute list and an ordered forest of children. -/
inductive DomNode where
  | text (s : String)
  | elem (tag : String) (attrs : List (String × String)) (children : DomForest)
deriving DecidableEq
/-- An ordered forest of sibling nodes (the child list of an element). -/
inductive DomForest where
  | nil
  | cons (head : DomNode) (tail : DomForest)
deriving DecidableEq
end

/-- The child forest of a node (empty for text nodes). -/
def childrenForest : DomNode → DomForest
  | .text _ => .nil
  | .elem _ _ cs => cs

/-- View a forest as a plain list of nodes. -/
def DomForest.toList : DomForest → List DomNode
  | .nil => []
  | .cons c cs => c :: cs.toList

/-- Build a forest from a list of nodes. -/
def DomForest.ofList : List DomNode → DomForest
  | [] => .nil
  | c :: cs => .cons c (DomForest.ofList cs)

/-- Concatenation of forests. -/
def DomForest.append : DomForest → DomForest → DomForest
  | .nil, g => g
  | .cons c cs, g => .cons c (cs.append g)

/-- Number of nodes at the top level of a forest. -/
def DomForest.len : DomForest → Nat
  | .nil => 0
  | .cons _ cs => 1 + cs.len

/-- Map a node transformation over the top level of a forest. -/
def mapForest (f : DomNode → DomNode) : DomForest → DomForest
  | .nil => .nil
  | .cons c cs => .cons (f c) (mapForest f cs)

/-- The forest holding the nodes of an `Option DomNode` (zero or one node). -/
def optForest : Option DomNode → DomForest
  | none => .nil
  | some n => .cons n .nil

/-- First value bound to attribute `k` in an attribute list. -/
def attrOf (attrs : List (String × String)) (k : String) : Option String :=
  match attrs with
  | [] => none
  | kv :: rest => if kv.1 == k then some kv.2 else attrOf rest k

/-- Splitting a class attribute value at spaces (runs of spaces yield no
empty words), as a class selector reads it. -/
def splitSpacesAux (acc : List Char) : List Char → List String
  | [] => if acc.isEmpty then [] else [String.mk acc.reverse]
  | c :: cs =>
      if c == ' ' then
        if acc.isEmpty then splitSpacesAux [] cs
        else String.mk acc.reverse :: splitSpacesAux [] cs
      else splitSpacesAux (c :: acc) cs

/-- The whitespace-separated words of a class attribute value. -/
def splitSpaces (s : String) : List String := splitSpacesAux [] s.data

/-- Whether an attribute list carries class `c` (a `.c` selector part). -/
def hasClassAttr (attrs : List (String × String)) (c : String) : Bool :=
  match attrOf attrs "class" with
  | some v => (splitSpaces v).contains c
  | none => false

/-! ## The selectors used by `daily_blog.js` -/

/-- Class parts of the content-container selector
`section.max-w-4xl.mx-auto.px-6.py-12.bg-white.rounded-xl.shadow`. -/
def sectionClasses : List String :=
  ["max-w-4xl", "mx-auto", "px-6", "py-12", "bg-white", "rounded-xl", "shadow"]

/-- The content-container signature of the post template. -/
def matchesContentSection (t : String) (a : List (String × String)) : Bool :=
  t == "section" && sectionClasses.all (fun c => hasClassAttr a c)

/-- Class parts of the index listing selector `.grid.md\:grid-cols-3.gap-10`. -/
def gridClasses : List String := ["grid", "md:grid-cols-3", "gap-10"]

/-- The listing (grid) container signature of the index document. -/
def matchesGridContainer (_t : String) (a : List (String × String)) : Bool :=
  gridClasses.all (fun c => hasClassAttr a c)

/-- A bare tag selector such as `title`, `h1`, `h2`, `img`. -/
def matchesTag (name : String) (t : String) (_a : List (String × String)) : Bool :=
  t == name

/-- The selector `img[alt="..."]`. -/
def matchesImgAlt (alt : String) (t : String) (a : List (String × String)) : Bool :=
  t == "img" && attrOf a "alt" == some alt

/-- The selector `p.text-gray-400` used for the date/byline paragraph. -/
def matchesDatePara (t : String) (a : List (String × String)) : Bool :=
  t == "p" && hasClassAttr a "text-gray-400"

/-! ## Generic selector operations (cheerio idioms) -/

/-- A selector predicate: decides a match from tag and attributes alone. -/
abbrev Sel := String → List (String × String) → Bool

mutual
/-- First element matching `p`, in document (pre)order, node and subtree. -/
def findFirstN (p : Sel) : DomNode → Option DomNode
  | .text _ => none
  | .elem t a cs => if p t a then some (.elem t a cs) else findFirstF p cs

/-- First element matching `p`, in document (pre)order, over a forest. -/
def findFirstF (p : Sel) : DomForest → Option DomNode
  | .nil => none
  | .cons c cs =>
      match findFirstN p c with
      | some n => some n
      | none => findFirstF p cs
end

mutual
/-- `$(sel).text(s)`: every matching element has its content replaced by the
single text node `s` (matches inside a replaced subtree are gone with it). -/
def setTextAllN (p : Sel) (s : String) : DomNode → DomNode
  | .text t => .text t
  | .elem t a cs =>
      if p t a then .elem t a (.cons (.text s) .nil)
      else .elem t a (setTextAllF p s cs)

/-- Forest version of `setTextAllN`. -/
def setTextAllF (p : Sel) (s : String) : DomForest → DomForest
  | .nil => .nil
  | .cons c cs => .cons (setTextAllN p s c) (setTextAllF p s cs)
end

/-- Set attribute `k` to `v` (replace an existing binding, else append it). -/
def setAttr (k v : String) : List (String × String) → List (String × String)
  | [] => [(k, v)]
  | kv :: rest => if kv.1 == k then (k, v) :: rest else kv :: setAttr k v rest

mutual
/-- `$(sel).attr(k, v)`: set the attribute on every matching element. -/
def setAttrAllN (p : Sel) (k v : String) : DomNode → DomNode
  | .text t => .text t
  | .elem t a cs =>
      if p t a then .elem t (setAttr k v a) (setAttrAllF p k v cs)
      else .elem t a (setAttrAllF p k v cs)

/-- Forest version of `setAttrAllN`. -/
def setAttrAllF (p : Sel) (k v : String) : DomForest → DomForest
  | .nil => .nil
  | .cons c cs => .cons (setAttrAllN p k v c) (setAttrAllF p k v cs)
end

mutual
/-- `$(sel).first().text(s)`: set the content of only the first matching
element in document order.  The returned flag says a match was consumed. -/
def setFirstTextN (p : Sel) (s : String) : DomNode → DomNode × Bool
  | .text t => (.text t, false)
  | .elem t a cs =>
      if p t a then (.elem t a (.cons (.text s) .nil), true)
      else
        let r := setFirstTextF p s cs
        (.elem t a r.1, r.2)

/-- Forest version of `setFirstTextN`. -/
def setFirstTextF (p : Sel) (s : String) : DomForest → DomForest × Bool
  | .nil => (.nil, false)
  | .cons c cs =>
      let rc := setFirstTextN p s c
      if rc.2 then (.cons rc.1 cs, true)
      else
        let rs := setFirstTextF p s cs
        (.cons c rs.1, rs.2)
end

mutual
/-- `$(sel).empty()` followed by appends, i.e. replace the whole child forest
of every matching element with `new` (the selection is taken before the
mutation, so matches inside discarded children simply disappear). -/
def replaceChildrenAllN (p : Sel) (new : DomForest) : DomNode → DomNode
  | .text t => .text t
  | .elem t a cs =>
      if p t a then .elem t a new
      else .elem t a (replaceChildrenAllF p new cs)

/-- Forest version of `replaceChildrenAllN`. -/
def replaceChildrenAllF (p : Sel) (new : DomForest) : DomForest → DomForest
  | .nil => .nil
  | .cons c cs => .cons (replaceChildrenAllN p new c) (replaceChildrenAllF p new cs)
end

mutual
/-- `$(sel).prepend(fragment)`: insert `new` before the existing children of
every matching element (existing children, matched nested elements included,
are kept; the inserted fragment itself is not re-inspected). -/
def prependAllN (p : Sel) (new : DomForest) : DomNode → DomNode
  | .text t => .text t
  | .elem t a cs =>
      if p t a then .elem t a (new.append (prependAllF p new cs))
      else .elem t a (prependAllF p new cs)

/-- Forest version of `prependAllN`. -/
def prependAllF (p : Sel) (new : DomForest) : DomForest → DomForest
  | .nil => .nil
  | .cons c cs => .cons (prependAllN p new c) (prependAllF p new cs)
end

mutual
/-- Whether the subtree rooted at a node holds an element matching `p`. -/
def containsMatchN (p : Sel) : DomNode → Bool
  | .text _ => false
  | .elem t a cs => p t a || containsMatchF p cs

/-- Whether a forest holds an element matching `p`. -/
def containsMatchF (p : Sel) : DomForest → Bool
  | .nil => false
  | .cons c cs => containsMatchN p c || containsMatchF p cs
end

/-! ## The breadcrumb rewrite

`run` executes one convoluted statement before the main template mutation:

    $template('.text-blue-500 + span').parent().next()
      .find('a[href="blogs.html"]').parent().html(crumb)

that is: for every element whose element children hold a `span` immediately
preceded (as element sibling) by an element of class `text-blue-500`, take
its next element sibling and, inside that sibling, replace the children of
every element having a direct `a[href="blogs.html"]` child with the parsed
crumb fragment.  The source itself marks this line as a simplification and
its own comments call the breadcrumb rewrite dead in the real template; it is
embedded here so the mutation pipeline is complete. -/

/-- Whether a forest of children holds a `span` element whose nearest
preceding element sibling carries class `text-blue-500` (the selector
`.text-blue-500 + span` matches such a span). -/
def hasAdjPairAux (prevBlue : Bool) : DomForest → Bool
  | .nil => false
  | .cons (.text _) cs => hasAdjPairAux prevBlue cs
  | .cons (.elem t a _) cs =>
      (prevBlue && t == "span") || hasAdjPairAux (hasClassAttr a "text-blue-500") cs

/-- Whether a node directly contains an adjacent `.text-blue-500` / `span`
element pair, i.e. is a `.parent()` of a selector match. -/
def nodeHasAdjPair : DomNode → Bool
  | .text _ => false
  | .elem _ _ cs => hasAdjPairAux false cs

/-- Whether a node is an anchor `a[href="blogs.html"]`. -/
def isBlogsAnchor : DomNode → Bool
  | .text _ => false
  | .elem t a _ => t == "a" && attrOf a "href" == some "blogs.html"

/-- Whether a forest directly holds an `a[href="blogs.html"]` element. -/
def hasBlogsAnchorChild : DomForest → Bool
  | .nil => false
  | .cons c cs => isBlogsAnchor c || hasBlogsAnchorChild cs

mutual
/-- `.find('a[href="blogs.html"]').parent().html(crumb)` within a subtree:
every element with a direct matching anchor child has its children replaced
by the crumb fragment (outermost such element wins; deeper matches were
inside the replaced content). -/
def setCrumbHtmlN (crumb : DomForest) : DomNode → DomNode
  | .text s => .text s
  | .elem t a cs =>
      if hasBlogsAnchorChild cs then .elem t a crumb
      else .elem t a (setCrumbHtmlF crumb cs)

/-- Forest version of `setCrumbHtmlN`. -/
def setCrumbHtmlF (crumb : DomForest) : DomForest → DomForest
  | .nil => .nil
  | .cons c cs => .cons (setCrumbHtmlN crumb c) (setCrumbHtmlF crumb cs)
end

/-- Apply `f` to the first element node of a forest (text nodes skipped),
the `.next()` step of the breadcrumb chain. -/
def applyToFirstElem (f : DomNode → DomNode) : DomForest → DomForest
  | .nil => .nil
  | .cons (.text s) cs => .cons (.text s) (applyToFirstElem f cs)
  | .cons (.elem t a k) cs => .cons (f (.elem t a k)) cs

mutual
/-- The whole breadcrumb statement over a node. -/
def crumbN (crumb : DomForest) : DomNode → DomNode
  | .text s => .text s
  | .elem t a cs => .elem t a (crumbF crumb cs)

/-- The whole breadcrumb statement over a forest: after each element that is
a `.parent()` of a selector match, the next element sibling receives the
crumb rewrite. -/
def crumbF (crumb : DomForest) : DomForest → DomForest
  | .nil => .nil
  | .cons c cs =>
      if nodeHasAdjPair c then
        .cons (crumbN crumb c) (applyToFirstElem (setCrumbHtmlN crumb) (crumbF crumb cs))
      else .cons (crumbN crumb c) (crumbF crumb cs)
end

/-- The parsed form of the breadcrumb fragment the source writes with the
post title interpolated at its tail:
`<a href="index.html" ...>Home</a> <span ...>></span> <a href="blogs.html" ...>Blogs</a> <span ...>></span> <span class="text-gray-200">{title}</span>`. -/
def crumbFragment (title : String) : DomForest :=
  DomForest.ofList
    [ .elem "a" [("href", "index.html"), ("class", "hover:text-blue-400")]
        (.cons (.text "Home") .nil)
    , .text " "
    , .elem "span" [("class", "mx-2 text-blue-400")] (.cons (.text ">") .nil)
    , .text " "
    , .elem "a" [("href", "blogs.html"), ("class", "hover:text-blue-400")]
        (.cons (.text "Blogs") .nil)
    , .text " "
    , .elem "span" [("class", "mx-2 text-blue-400")] (.cons (.text ">") .nil)
    , .text " "
    , .elem "span" [("class", "text-gray-200")] (.cons (.text title) .nil) ]

/-! ## Naming deriver: `getSlug` -/

/-- Membership in the character class `[a-z0-9]` of the slug regex. -/
def isSlugChar (c : Char) : Bool :=
  ('a' ≤ c && c ≤ 'z') || ('0' ≤ c && c ≤ '9')

/-- One pass of `.replace(/[^a-z0-9]+/g, '-')`: each maximal run of
characters outside `[a-z0-9]` becomes a single `'-'`.  The flag records
being inside such a run (its `'-'` already emitted). -/
def collapseAux (inRun : Bool) : List Char → List Char
  | [] => []
  | c :: cs =>
      if isSlugChar c then c :: collapseAux false cs
      else if inRun then collapseAux true cs
      else '-' :: collapseAux true cs

/-- `.replace(/(^-|-$)+/g, '')` on the collapsed list: after collapsing,
separator runs have length one, so this strips one leading and one trailing
`'-'` exactly as the regex does. -/
def trimSep (l : List Char) : List Char :=
  ((l.dropWhile (fun c => c == '-')).reverse.dropWhile (fun c => c == '-')).reverse

/-- `getSlug(title)` of `daily_blog.js`:
`title.toLowerCase().replace(/[^a-z0-9]+/g, '-').replace(/(^-|-$)+/g, '')`
(lowercasing embedded per ASCII, which covers every title the script
builds). -/
def getSlug (title : String) : String :=
  String.mk (trimSep (collapseAux false (title.data.map Char.toLower)))

/-! ## Content synthesizer -/

/-- The generated post content record `{ title, content, metaDescription }`. -/
structure GeneratedContent where
  title : String
  content : String
  metaDescription : String
deriving DecidableEq

/-- Fixed pieces of the fallback body markup, split at each `${topic}`
interpolation of the template literal in `generateFallbackContent`. -/
def fbContentA : String :=
  "\n            <p class=\"text-gray-700 mb-4\">\n                In the rapidly evolving world of technology, <strong>"

/-- Second fixed piece of the fallback body markup. -/
def fbContentB : String :=
  "</strong> has emerged as a key area of focus for professionals and businesses alike. \n                As we move further into the digital age, understanding the nuances of this subject is becoming increasingly critical.\n            </p>\n            \n            <h3 class=\"text-xl font-semibold text-gray-800 mb-3\">Why "

/-- Third fixed piece of the fallback body markup. -/
def fbContentC : String :=
  " Matters Now</h3>\n            <p class=\"text-gray-700 mb-4\">\n                The shift towards "

/-- Fourth fixed piece of the fallback body markup. -/
def fbContentD : String :=
  " is not just a trend; it's a fundamental change in how we approach problem-solving and efficiency.\n                Experts predict that this field will continue to grow, offering new opportunities for innovation and optimization.\n                Whether you are a developer, a designer, or a business owner, staying updated with these changes is essential.\n            </p>\n\n            <h3 class=\"text-xl font-semibold text-gray-800 mb-3\">Key Benefits and Trends</h3>\n            <ul class=\"list-disc pl-5 text-gray-700 mb-4 space-y-2\">\n                <li><strong>Efficiency:</strong> Streamlining workflows to save time and resources.</li>\n                <li><strong>Scalability:</strong> Building systems that can grow with demand.</li>\n                <li><strong>Innovation:</strong> leveraging new tools to solve old problems in creative ways.</li>\n            </ul>\n\n            <p class=\"text-gray-700 mb-4\">\n                To stay ahead, it is crucial to adopt a continuous learning mindset. Experiment with new tools, read documentation, and engage with the community.\n                The future belongs to those who adapt, and "

/-- Fifth fixed piece of the fallback body markup. -/
def fbContentE : String :=
  " is a great place to start your journey.\n            </p>\n\n            <p class=\"text-gray-700 mb-4\">\n                Start exploring <strong>"

/-- Last fixed piece of the fallback body markup. -/
def fbContentF : String :=
  "</strong> today and unlock new potentials for your career or business.\n            </p>\n        "

/-- `generateFallbackContent(topic)`: the deterministic Smart Template
strategy.  Title, body markup and meta description are the source's template
literals with `topic` interpolated at each marked position. -/
def generateFallbackContent (topic : String) : GeneratedContent :=
  { title := "The Future of " ++ topic ++ ": What You Need to Know"
  , content :=
      fbContentA ++ topic ++ fbContentB ++ topic ++ fbContentC ++ topic ++
        fbContentD ++ topic ++ fbContentE ++ topic ++ fbContentF
  , metaDescription :=
      "Discover the latest trends and insights about " ++ topic ++
        ". Learn why it matters and how to leverage it for success in the modern tech landscape." }

/-- `generateContent(topic)`: with no `OPENAI_API_KEY` it returns the
fallback; with a key present the body is a placeholder that likewise returns
the fallback (the external call is commented out in the source), and the
surrounding `try`/`catch` would also return the fallback after logging.  In
every case the function returns normally. -/
def generateContent (apiKey : Option String) (topic : String) : GeneratedContent :=
  match apiKey with
  | none => generateFallbackContent topic
  | some _ => generateFallbackContent topic

/-! ## Derived file names -/

/-- `blogFilename` of `run`: `` `${dateISO}-${slug}.html` ``. -/
def postFilenameOf (dateISO slug : String) : String :=
  dateISO ++ "-" ++ slug ++ ".html"

/-- `imageFilename` of `run`: `` `blog-${slug}-${dateISO}.jpg` ``. -/
def imageFilenameOf (dateISO slug : String) : String :=
  "blog-" ++ slug ++ "-" ++ dateISO ++ ".jpg"

/-! ## Template mutator: `renderPost`

The mutation of the loaded template in step 3 of `run`, in source order:
page title, hero `h1`, breadcrumb statement, cover image `src`, first `h2`
text, content image `src`, then the content-container rewrite (`empty`
followed by appends of the preserved image, preserved heading, the body
markup and a fresh date paragraph) and finally the date/byline text set on
every `p.text-gray-400` inside the container.  The source also computes
`dateTag` and `newContentHTML` on the way; both are dead (never used by the
executed path) and are not modelled.  The body markup string is appended
through cheerio's fragment parser; the parsed fragment is the `body`
argument here. -/

/-- The fixed site-name suffix set on the page title. -/
def siteSuffix : String := " - Nexora Technologies"

/-- The freshly appended date paragraph
`<p class="text-gray-400 text-sm mb-6">{dateDisplay}</p>`. -/
def dateParaNode (dateDisplay : String) : DomNode :=
  .elem "p" [("class", "text-gray-400 text-sm mb-6")] (.cons (.text dateDisplay) .nil)

/-- The byline text written over every `p.text-gray-400` of the container:
`` `${dateDisplay} • By AutoBlog Bot` ``. -/
def bylineText (dateDisplay : String) : String :=
  dateDisplay ++ " • By AutoBlog Bot"

/-- Steps of `run`'s template mutation before the content-container rewrite:
`$('title').text`, `$('h1').text`, the breadcrumb statement,
`$('img[alt="Blog Cover"]').attr('src', ...)`, `$('h2').first().text`,
`$('img[alt="AI Integration Blog"]').attr('src', ...)`. -/
def preContentStages (title imageFilename : String) (doc : DomNode) : DomNode :=
  let d1 := setTextAllN (matchesTag "title") (title ++ siteSuffix) doc
  let d2 := setTextAllN (matchesTag "h1") title d1
  let d3 := crumbN (crumbFragment title) d2
  let d4 := setAttrAllN (matchesImgAlt "Blog Cover") "src" ("./" ++ imageFilename) d3
  let d5 := (setFirstTextN (matchesTag "h2") title d4).1
  setAttrAllN (matchesImgAlt "AI Integration Blog") "src" ("./" ++ imageFilename) d5

/-- The content-container rewrite: capture the first matched section, its
first `img` descendant and first `h2` descendant, then replace the child
forest of every matched section by image, heading, body markup and date
paragraph, and set the byline text on every `p.text-gray-400` of that new
content (the selection for the final `.find` was captured before the
rewrite, so it reaches exactly the new children of the matched sections). -/
def contentSectionStage (body : DomForest) (dateDisplay : String) (doc : DomNode) : DomNode :=
  let sec? := findFirstN matchesContentSection doc
  let heroImg := sec?.bind (fun s => findFirstF (matchesTag "img") (childrenForest s))
  let mainTitle := sec?.bind (fun s => findFirstF (matchesTag "h2") (childrenForest s))
  let newChildren :=
    (optForest heroImg).append
      ((optForest mainTitle).append
        (body.append (.cons (dateParaNode dateDisplay) .nil)))
  let withByline := mapForest (setTextAllN matchesDatePara (bylineText dateDisplay)) newChildren
  replaceChildrenAllN matchesContentSection withByline doc

/-- `renderPost`: the whole template mutation of step 3 of `run`. -/
def renderPost (doc : DomNode) (title : String) (body : DomForest)
    (imageFilename dateDisplay : String) : DomNode :=
  contentSectionStage body dateDisplay (preContentStages title imageFilename doc)

/-- The children of the first content-container match of a document. -/
def sectionChildrenOf (doc : DomNode) : Option (List DomNode) :=
  (findFirstN matchesContentSection doc).map (fun n => (childrenForest n).toList)

/-! ## Index mutator: `insertEntry` -/

/-- Step 4 of `run`: if the grid container is found, prepend the new entry
fragment to it; otherwise log
`Could not find blog grid container in blogs.html` and leave the document
unchanged.  The returned flag reports the logged error. -/
def insertEntry (doc : DomNode) (entry : DomForest) : DomNode × Bool :=
  if (findFirstN matchesGridContainer doc).isSome then
    (prependAllN matchesGridContainer entry doc, false)
  else (doc, true)

/-- The children of the first listing (grid) container match. -/
def gridChildrenOf (doc : DomNode) : Option (List DomNode) :=
  (findFirstN matchesGridContainer doc).map (fun n => (childrenForest n).toList)

/-- `newCardHtml` of `run`: the entry fragment markup with image filename,
title, meta description, display date and post filename interpolated. -/
def newCardHtml (imageFilename title metaDescription dateDisplay blogFilename : String) : String :=
  "\n            <!-- BLOG CARD -->\n            <div class=\"bg-white rounded-lg shadow hover:scale-105 transition overflow-hidden\">\n                <img src=\"./" ++
    imageFilename ++
    "\" class=\"w-full h-48 object-cover\">\n                <div class=\"p-6\">\n                    <h4 class=\"text-xl font-semibold mb-2\">" ++
    title ++
    "</h4>\n                    <p class=\"text-gray-600 text-sm mb-4\">\n                        " ++
    metaDescription ++
    "\n                    </p>\n                    <p class=\"text-gray-400 text-xs mb-2\">" ++
    dateDisplay ++
    "</p>\n                    <a href=\"./" ++
    blogFilename ++
    "\" class=\"text-blue-600 hover:underline\">Read More →</a>\n                </div>\n            </div>\n        "

/-! ## Pipeline orchestrator: `run` -/

/-- The external inputs of one `run`: the selected topic, the credential,
the current date in both formats, the outcome of the image download, the
loaded template and index documents, and cheerio's HTML fragment parser
(used when a markup string is appended or prepended). -/
structure RunEnv where
  topic : String
  apiKey : Option String
  dateISO : String
  dateDisplay : String
  imageFetch : Except String Unit
  template : DomNode
  indexDoc : DomNode
  fragmentOf : String → DomForest

/-- What one `run` did: which files were written (with their content),
whether the publish step was reached, the error-log lines appended, and the
error caught by the top-level handler, if any. -/
structure RunResult where
  imageSaved : Bool
  postWritten : Option (String × DomNode)
  indexWritten : Option DomNode
  publishInvoked : Bool
  errorsLogged : List String
  fatal : Option String
deriving DecidableEq

/-- The `run` orchestrator.  Content generation and name derivation come
first; a failed image download is logged (`Image download failed: ...`),
re-thrown by `downloadImage` and caught by `run`'s top-level handler, which
logs the message again — with no post file, no index update and no git
invocation.  On a successful download the template is mutated and written,
the index is updated (best-effort) and written back, and git is invoked. -/
def run (env : RunEnv) : RunResult :=
  let blogData := generateContent env.apiKey env.topic
  let slug := getSlug blogData.title
  let imageFilename := imageFilenameOf env.dateISO slug
  let blogFilename := postFilenameOf env.dateISO slug
  match env.imageFetch with
  | .error e =>
      { imageSaved := false
        postWritten := none
        indexWritten := none
        publishInvoked := false
        errorsLogged := ["Image download failed: " ++ e, e]
        fatal := some e }
  | .ok _ =>
      let postDoc :=
        renderPost env.template blogData.title (env.fragmentOf blogData.content)
          imageFilename env.dateDisplay
      let card :=
        newCardHtml imageFilename blogData.title blogData.metaDescription
          env.dateDisplay blogFilename
      let indexed := insertEntry env.indexDoc (env.fragmentOf card)
      { imageSaved := true
        postWritten := some (blogFilename, postDoc)
        indexWritten := some indexed.1
        publishInvoked := true
        errorsLogged :=
          if indexed.2 then ["Could not find blog grid container in blogs.html"] else []
        fatal := none }

/-! ## Structural lemmas about the selector operations -/

/-- Replacing the child forest of a node by `new` (text nodes unchanged). -/
def setKidsFn (new : DomForest) : DomNode → DomNode
  | .text s => .text s
  | .elem t a _ => .elem t a new

/-- What `prependAllN p new` makes of a matched element. -/
def prependKidsFn (p : Sel) (new : DomForest) : DomNode → DomNode
  | .text s => .text s
  | .elem t a cs => .elem t a (new.append (prependAllF p new cs))

theorem toList_append : ∀ f g : DomForest, (f.append g).toList = f.toList ++ g.toList := by
  intro f g
  match f with
  | .nil => simp [DomForest.append, DomForest.toList]
  | .cons c cs => simp [DomForest.append, DomForest.toList, toList_append cs g]

theorem toList_mapForest (h : DomNode → DomNode) :
    ∀ f : DomForest, (mapForest h f).toList = f.toList.map h := by
  intro f
  match f with
  | .nil => simp [mapForest, DomForest.toList]
  | .cons c cs => simp [mapForest, DomForest.toList, toList_mapForest h cs]

mutual
theorem findFirstN_replace (p : Sel) (new : DomForest) :
    ∀ d : DomNode,
      findFirstN p (replaceChildrenAllN p new d) = (findFirstN p d).map (setKidsFn new) := by
  intro d
  match d with
  | .text s => simp [findFirstN, replaceChildrenAllN]
  | .elem t a cs =>
      by_cases h : p t a = true
      · simp [findFirstN, replaceChildrenAllN, h, setKidsFn]
      · simp [findFirstN, replaceChildrenAllN, h, findFirstF_replace p new cs]

theorem findFirstF_replace (p : Sel) (new : DomForest) :
    ∀ f : DomForest,
      findFirstF p (replaceChildrenAllF p new f) = (findFirstF p f).map (setKidsFn new) := by
  intro f
  match f with
  | .nil => simp [findFirstF, replaceChildrenAllF]
  | .cons c cs =>
      simp only [findFirstF, replaceChildrenAllF]
      rw [findFirstN_replace p new c]
      cases hc : findFirstN p c with
      | none => simp [findFirstF_replace p new cs]
      | some n => simp
end

mutual
theorem findFirstN_prepend (p : Sel) (new : DomForest) :
    ∀ d : DomNode,
      findFirstN p (prependAllN p new d) = (findFirstN p d).map (prependKidsFn p new) := by
  intro d
  match d with
  | .text s => simp [findFirstN, prependAllN]
  | .elem t a cs =>
      by_cases h : p t a = true
      · simp [findFirstN, prependAllN, h, prependKidsFn]
      · simp [findFirstN, prependAllN, h, findFirstF_prepend p new cs]

theorem findFirstF_prepend (p : Sel) (new : DomForest) :
    ∀ f : DomForest,
      findFirstF p (prependAllF p new f) = (findFirstF p f).map (prependKidsFn p new) := by
  intro f
  match f with
  | .nil => simp [findFirstF, prependAllF]
  | .cons c cs =>
      simp only [findFirstF, prependAllF]
      rw [findFirstN_prepend p new c]
      cases hc : findFirstN p c with
      | none => simp [findFirstF_prepend p new cs]
      | some n => simp
end

mutual
theorem prependAllN_id (p : Sel) (new : DomForest) :
    ∀ d : DomNode, containsMatchN p d = false → prependAllN p new d = d := by
  intro d h
  match d with
  | .text s => rfl
  | .elem t a cs =>
      simp only [containsMatchN, Bool.or_eq_false_iff] at h
      simp [prependAllN, h.1, prependAllF_id p new cs h.2]

theorem prependAllF_id (p : Sel) (new : DomForest) :
    ∀ f : DomForest, containsMatchF p f = false → prependAllF p new f = f := by
  intro f h
  match f with
  | .nil => rfl
  | .cons c cs =>
      simp only [containsMatchF, Bool.or_eq_false_iff] at h
      simp [prependAllF, prependAllN_id p new c h.1, prependAllF_id p new cs h.2]
end

/-! ## Lemmas about `getSlug` -/

theorem head?_dropWhile_false (p : Char → Bool) :
    ∀ l : List Char, ∀ x, (l.dropWhile p).head? = some x → p x = false := by
  intro l
  induction l with
  | nil => intro x h; simp [List.dropWhile] at h
  | cons c cs ih =>
      intro x h
      by_cases hc : p c = true
      · rw [List.dropWhile_cons_of_pos hc] at h; exact ih x h
      · rw [List.dropWhile_cons_of_neg hc] at h
        simp only [List.head?_cons, Option.some.injEq] at h
        rw [← h]
        simpa using hc

theorem collapseAux_mem : ∀ (l : List Char) (b : Bool) (x : Char),
    x ∈ collapseAux b l → isSlugChar x = true ∨ x = '-' := by
  intro l
  induction l with
  | nil => intro b x hx; simp [collapseAux] at hx
  | cons c cs ih =>
      intro b x hx
      by_cases hc : isSlugChar c = true
      · simp only [collapseAux, if_pos hc, List.mem_cons] at hx
        rcases hx with h | h
        · left; rw [h]; exact hc
        · exact ih false x h
      · by_cases hb : b = true
        · simp only [collapseAux, if_neg hc, if_pos hb] at hx
          exact ih true x hx
        · simp only [collapseAux, if_neg hc, if_neg hb, List.mem_cons] at hx
          rcases hx with h | h
          · right; exact h
          · exact ih true x h

theorem collapseAux_true_head : ∀ (l : List Char) (x : Char),
    (collapseAux true l).head? = some x → isSlugChar x = true := by
  intro l
  induction l with
  | nil => intro x hx; simp [collapseAux] at hx
  | cons c cs ih =>
      intro x hx
      by_cases hc : isSlugChar c = true
      · simp only [collapseAux, if_pos hc, List.head?_cons, Option.some.injEq] at hx
        rw [← hx]; exact hc
      · simp only [collapseAux, if_neg hc, if_pos rfl] at hx
        exact ih x hx

theorem collapseAux_chain : ∀ (l : List Char) (b : Bool),
    List.Chain' (fun a c => ¬(a = '-' ∧ c = '-')) (collapseAux b l) := by
  intro l
  induction l with
  | nil => intro b; simp [collapseAux]
  | cons c cs ih =>
      intro b
      by_cases hc : isSlugChar c = true
      · rw [collapseAux, if_pos hc, List.chain'_cons']
        refine ⟨?_, ih false⟩
        intro y _ hy
        rw [hy.1] at hc
        simp [isSlugChar] at hc
      · by_cases hb : b = true
        · rw [collapseAux, if_neg hc, if_pos hb]
          exact ih true
        · rw [collapseAux, if_neg hc, if_neg hb, List.chain'_cons']
          refine ⟨?_, ih true⟩
          intro y hy hcontra
          have := collapseAux_true_head cs y hy
          rw [hcontra.2] at this
          simp [isSlugChar] at this

theorem collapseAux_true_nil : ∀ l : List Char,
    (∀ c ∈ l, isSlugChar c = false) → collapseAux true l = [] := by
  intro l
  induction l with
  | nil => intro _; rfl
  | cons c cs ih =>
      intro h
      have hc : isSlugChar c = false := h c (by simp)
      rw [collapseAux, if_neg (by simp [hc]), if_pos rfl]
      exact ih (fun x hx => h x (by simp [hx]))

theorem trimSep_subset : ∀ (l : List Char) (x : Char), x ∈ trimSep l → x ∈ l := by
  intro l x hx
  unfold trimSep at hx
  rw [List.mem_reverse] at hx
  have h1 : x ∈ (l.dropWhile (fun c => c == '-')).reverse :=
    (List.dropWhile_suffix _).subset hx
  rw [List.mem_reverse] at h1
  exact (List.dropWhile_suffix _).subset h1

theorem trimSep_chain (l : List Char)
    (h : List.Chain' (fun a c => ¬(a = '-' ∧ c = '-')) l) :
    List.Chain' (fun a c => ¬(a = '-' ∧ c = '-')) (trimSep l) := by
  unfold trimSep
  have h1 := h.suffix (List.dropWhile_suffix (fun c => c == '-'))
  have h2 : List.Chain' (flip (fun a c => ¬(a = '-' ∧ c = '-')))
      ((l.dropWhile (fun c => c == '-')).reverse) := List.chain'_reverse.mpr h1
  have h3 := h2.suffix (List.dropWhile_suffix (fun c => c == '-'))
  exact List.chain'_reverse.mpr h3

theorem trimSep_head : ∀ (l : List Char) (x : Char),
    (trimSep l).head? = some x → (x == '-') = false := by
  intro l x hx
  unfold trimSep at hx
  rw [List.head?_reverse] at hx
  obtain ⟨t, ht⟩ := List.dropWhile_suffix
    (l := (l.dropWhile (fun c => c == '-')).reverse) (fun c => c == '-')
  have hne : (l.dropWhile (fun c => c == '-')).reverse.dropWhile (fun c => c == '-') ≠ [] := by
    intro hnil; rw [hnil] at hx; simp at hx
  have hsame := List.getLast?_append_of_ne_nil t hne
  rw [ht, List.getLast?_reverse, hx] at hsame
  exact head?_dropWhile_false (fun c => c == '-') l x hsame

theorem trimSep_getLast : ∀ (l : List Char) (x : Char),
    (trimSep l).getLast? = some x → (x == '-') = false := by
  intro l x hx
  unfold trimSep at hx
  rw [List.getLast?_reverse] at hx
  exact head?_dropWhile_false (fun c => c == '-')
    ((l.dropWhile (fun c => c == '-')).reverse) x hx

/-! ## Concrete demonstration documents and environments

Small documents of the shape the spec ascribes to the repository pages:
`demoTemplate` carries the anchors of `blog-ai.html` (page title, hero `h1`,
the content container with its leading image and heading and a trailing date
paragraph); `demoNoSectionTemplate` lacks the content container;
`demoGridDoc` is an index document with an empty listing container;
`demoNoGridDoc` lacks the listing container. -/

/-- The attribute list of the content container in the template page. -/
def demoSectionAttrs : List (String × String) :=
  [("class", "max-w-4xl mx-auto px-6 py-12 bg-white rounded-xl shadow")]

/-- A base template document holding every anchor `renderPost` touches. -/
def demoTemplate : DomNode :=
  .elem "html" []
    (.cons (.elem "head" []
        (.cons (.elem "title" [] (.cons (.text "Old Title") .nil)) .nil))
      (.cons (.elem "body" []
          (.cons (.elem "h1" [] (.cons (.text "Old Hero") .nil))
            (.cons (.elem "section" demoSectionAttrs
                (.cons (.elem "img" [("alt", "AI Integration Blog"), ("src", "./old.jpg")] .nil)
                  (.cons (.elem "h2" [] (.cons (.text "Old H2") .nil))
                    (.cons (.elem "p" [("class", "text-gray-700 mb-4")]
                        (.cons (.text "old body") .nil))
                      (.cons (.elem "p" [("class", "text-gray-400 text-sm mb-6")]
                          (.cons (.text "Jan 01, 2020") .nil))
                        .nil)))))
              .nil)))
        .nil))

/-- A body-markup fragment of two top-level paragraphs. -/
def twoParaBody : DomForest :=
  .cons (.elem "p" [] (.cons (.text "one") .nil))
    (.cons (.elem "p" [] (.cons (.text "two") .nil)) .nil)

/-- A base document with no node matching the content-container signature. -/
def demoNoSectionTemplate : DomNode :=
  .elem "html" []
    (.cons (.elem "head" []
        (.cons (.elem "title" [] (.cons (.text "Nexora Technologies") .nil)) .nil))
      (.cons (.elem "body" []
          (.cons (.elem "h1" [] (.cons (.text "Old Hero") .nil)) .nil))
        .nil))

/-- An index document whose listing container is present and empty. -/
def demoGridDoc : DomNode :=
  .elem "body" []
    (.cons (.elem "div" [("class", "grid md:grid-cols-3 gap-10")] .nil) .nil)

/-- An index document without the listing-container signature. -/
def demoNoGridDoc : DomNode :=
  .elem "body" [] (.cons (.elem "div" [("class", "container")] .nil) .nil)

/-- A first listing entry fragment (E1). -/
def entryOne : DomNode := .elem "div" [("id", "card-1")] .nil

/-- A second listing entry fragment (E2). -/
def entryTwo : DomNode := .elem "div" [("id", "card-2")] .nil

/-- A stand-in fragment parser for concrete scenarios (one text node); the
conclusions drawn from these scenarios do not depend on its choice. -/
def textFragmentOf (s : String) : DomForest := .cons (.text s) .nil

/-- A run whose image download fails. -/
def demoEnvImageFail : RunEnv :=
  { topic := "AI tools for productivity", apiKey := none, dateISO := "2025-03-01",
    dateDisplay := "Mar 01, 2025", imageFetch := .error "network down",
    template := demoTemplate, indexDoc := demoGridDoc, fragmentOf := textFragmentOf }

/-- A run whose base template lacks the content container. -/
def demoEnvNoSection : RunEnv :=
  { demoEnvImageFail with imageFetch := .ok (), template := demoNoSectionTemplate }

/-- A run whose index document lacks the listing container. -/
def demoEnvNoGrid : RunEnv :=
  { demoEnvImageFail with imageFetch := .ok (), indexDoc := demoNoGridDoc }

/-- The end-to-end scenario run: topic `Quantum Computing: A Beginner's
Guide` on 2025-03-01. -/
def demoEnvQuantum : RunEnv :=
  { demoEnvImageFail with
    topic := "Quantum Computing: A Beginner's Guide"
    imageFetch := .ok () }

/-! ## The claims -/

/-- C5 (amended): `slug(title)` is the lowercased title with every maximal
run of characters outside `[a-z0-9]` collapsed to a single separator and
leading/trailing separators stripped, so every character of the result is a
lowercase alphanumeric or a separator, no two separators are adjacent, the
result neither begins nor ends with a separator — and it is the empty string
for titles whose lowercased form contains no character in `[a-z0-9]` (the
amendment: the class test applies after lowercasing, not to the raw title). -/
theorem getSlug_spec (title : String) :
    ((∀ x ∈ (getSlug title).data, isSlugChar x = true ∨ x = '-')
      ∧ List.Chain' (fun a b => ¬(a = '-' ∧ b = '-')) (getSlug title).data
      ∧ (getSlug title).data.head? ≠ some '-'
      ∧ (getSlug title).data.getLast? ≠ some '-')
    ∧ ((∀ c ∈ title.data.map Char.toLower, isSlugChar c = false) → getSlug title = "") := by
  constructor
  · refine ⟨?_, ?_, ?_, ?_⟩
    · intro x hx
      exact collapseAux_mem _ false x (trimSep_subset _ x hx)
    · exact trimSep_chain _ (collapseAux_chain _ false)
    · intro h
      have := trimSep_head (collapseAux false (title.data.map Char.toLower)) '-' h
      simp at this
    · intro h
      have := trimSep_getLast (collapseAux false (title.data.map Char.toLower)) '-' h
      simp at this
  · intro h
    unfold getSlug
    cases hl : title.data.map Char.toLower with
    | nil => decide
    | cons c cs =>
        rw [hl] at h
        have hc : isSlugChar c = false := h c (by simp)
        have hcs : collapseAux true cs = [] :=
          collapseAux_true_nil cs (fun x hx => h x (by simp [hx]))
        rw [collapseAux, if_neg (by simp [hc]), if_neg (by simp), hcs]
        decide

/-- Witness for C5: a title with no alphanumeric character at all slugifies
to the empty string. -/
theorem getSlug_spec_witness : getSlug "!!!" = "" :=
  (getSlug_spec "!!!").2 (by decide)

/-- Counterexample for C5 as stated: the title `"A"` contains no character
in `[a-z0-9]` (it is uppercase), yet its slug is `"a"`, not the empty
string. -/
theorem getSlug_empty_cex :
    (∀ c ∈ "A".data, isSlugChar c = false) ∧ getSlug "A" ≠ "" := by
  constructor
  · decide
  · decide

/-- C8: content generation never fails: with or without a credential (and
the external call being a placeholder that cannot throw), `generateContent`
returns the deterministic fallback content; no error propagates to the
caller. -/
theorem generateContent_never_throws :
    ∀ (apiKey : Option String) (topic : String),
      generateContent apiKey topic = generateFallbackContent topic := by
  intro k t
  cases k with
  | none => rfl
  | some _ => rfl

/-- C10: the credentialed path and the credential-less path of content
generation are extensionally equal — the external generation service is
never consulted. -/
theorem generateContent_paths_equal :
    ∀ (key topic : String), generateContent (some key) topic = generateContent none topic := by
  intro k t
  rfl

/-- C7: the fallback synthesis is a pure function of the topic: the title is
exactly `The Future of {topic}: What You Need to Know`, and the topic string
occurs verbatim inside the title, the body markup and the meta
description. -/
theorem fallback_content_deterministic (topic : String) :
    (generateFallbackContent topic).title = "The Future of " ++ topic ++ ": What You Need to Know"
    ∧ (∃ a b, (generateFallbackContent topic).title = a ++ topic ++ b)
    ∧ (∃ a b, (generateFallbackContent topic).content = a ++ topic ++ b)
    ∧ (∃ a b, (generateFallbackContent topic).metaDescription = a ++ topic ++ b) := by
  refine ⟨rfl, ⟨"The Future of ", ": What You Need to Know", rfl⟩,
    ⟨fbContentA ++ topic ++ fbContentB ++ topic ++ fbContentC ++ topic ++
        fbContentD ++ topic ++ fbContentE, fbContentF, rfl⟩,
    ⟨"Discover the latest trends and insights about ",
      ". Learn why it matters and how to leverage it for success in the modern tech landscape.",
      rfl⟩⟩

/-- C6: the derived file names for the end-to-end scenario: slugifying the
synthesized title (not the raw topic) for topic `Quantum Computing: A
Beginner's Guide` on 2025-03-01 yields the expected post and image file
names, and the pipeline writes the post under exactly that name. -/
theorem derived_filenames_scenario :
    getSlug (generateFallbackContent "Quantum Computing: A Beginner's Guide").title
      = "the-future-of-quantum-computing-a-beginner-s-guide-what-you-need-to-know"
    ∧ postFilenameOf "2025-03-01"
        (getSlug (generateFallbackContent "Quantum Computing: A Beginner's Guide").title)
      = "2025-03-01-the-future-of-quantum-computing-a-beginner-s-guide-what-you-need-to-know.html"
    ∧ imageFilenameOf "2025-03-01"
        (getSlug (generateFallbackContent "Quantum Computing: A Beginner's Guide").title)
      = "blog-the-future-of-quantum-computing-a-beginner-s-guide-what-you-need-to-know-2025-03-01.jpg"
    ∧ (run demoEnvQuantum).postWritten.map Prod.fst
      = some "2025-03-01-the-future-of-quantum-computing-a-beginner-s-guide-what-you-need-to-know.html" := by
  refine ⟨by decide, by decide, by decide, by decide⟩

/-- C9: a failed image download aborts the run: the failure is logged by
`downloadImage` and re-thrown, the fatal error unwinds to `run`'s top-level
handler (which logs it again), and no post file is written, no index update
happens and the publish step is never invoked. -/
theorem image_failure_aborts_run (env : RunEnv) (e : String)
    (h : env.imageFetch = .error e) :
    run env =
      { imageSaved := false
        postWritten := none
        indexWritten := none
        publishInvoked := false
        errorsLogged := ["Image download failed: " ++ e, e]
        fatal := some e } := by
  unfold run
  rw [h]

/-- Witness for C9 at a concrete environment whose image fetch fails. -/
theorem image_failure_aborts_run_witness :
    run demoEnvImageFail =
      { imageSaved := false
        postWritten := none
        indexWritten := none
        publishInvoked := false
        errorsLogged := ["Image download failed: " ++ "network down", "network down"]
        fatal := some "network down" } :=
  image_failure_aborts_run demoEnvImageFail "network down" rfl

/-- C4: when the index document has no listing (grid) container,
`insertEntry` leaves the document unchanged and signals the recoverable
error (the source logs `Could not find blog grid container in blogs.html`);
the run still writes the (unchanged) index, still reaches the publish step,
and no exception reaches the top-level handler. -/
theorem insertEntry_missing_grid_recoverable (env : RunEnv) (entry : DomForest)
    (hgrid : findFirstN matchesGridContainer env.indexDoc = none)
    (hok : env.imageFetch = .ok ()) :
    insertEntry env.indexDoc entry = (env.indexDoc, true)
    ∧ (run env).indexWritten = some env.indexDoc
    ∧ (run env).fatal = none
    ∧ (run env).publishInvoked = true
    ∧ (run env).errorsLogged = ["Could not find blog grid container in blogs.html"] := by
  have hins : ∀ f : DomForest, insertEntry env.indexDoc f = (env.indexDoc, true) := by
    intro f
    unfold insertEntry
    rw [hgrid]
    rfl
  refine ⟨hins entry, ?_, ?_, ?_, ?_⟩ <;>
    (unfold run; rw [hok]; try simp [hins])

/-- Witness for C4 at a concrete environment whose index document lacks the
grid container. -/
theorem insertEntry_missing_grid_recoverable_witness :
    insertEntry demoNoGridDoc DomForest.nil = (demoNoGridDoc, true)
    ∧ (run demoEnvNoGrid).indexWritten = some demoNoGridDoc
    ∧ (run demoEnvNoGrid).fatal = none
    ∧ (run demoEnvNoGrid).publishInvoked = true
    ∧ (run demoEnvNoGrid).errorsLogged = ["Could not find blog grid container in blogs.html"] :=
  insertEntry_missing_grid_recoverable demoEnvNoGrid DomForest.nil (by decide) rfl

/-- C3: when the listing container is present (and, as in the real index
page, no second container is nested inside it), `insertEntry` reports no
error and the container's new children are exactly the entry fragment
followed by the previous children in their original order. -/
theorem insertEntry_prepends_first (doc : DomNode) (entry : DomForest)
    (t : String) (a : List (String × String)) (cs : DomForest)
    (hfind : findFirstN matchesGridContainer doc = some (.elem t a cs))
    (hnonest : containsMatchF matchesGridContainer cs = false) :
    (insertEntry doc entry).2 = false
    ∧ gridChildrenOf (insertEntry doc entry).1 = some (entry.toList ++ cs.toList) := by
  have hif : insertEntry doc entry = (prependAllN matchesGridContainer entry doc, false) := by
    unfold insertEntry
    rw [hfind]
    rfl
  rw [hif]
  refine ⟨rfl, ?_⟩
  unfold gridChildrenOf
  rw [findFirstN_prepend matchesGridContainer entry doc, hfind]
  simp only [Option.map_some']
  rw [show prependKidsFn matchesGridContainer entry (DomNode.elem t a cs)
      = DomNode.elem t a (entry.append (prependAllF matchesGridContainer entry cs)) from rfl]
  rw [prependAllF_id matchesGridContainer entry cs hnonest]
  rw [show childrenForest (DomNode.elem t a (entry.append cs)) = entry.append cs from rfl]
  rw [toList_append]

/-- Witness for C3: inserting E1 then E2 into an initially empty listing
container yields child order [E2, E1]. -/
theorem insertEntry_prepends_first_witness :
    gridChildrenOf (insertEntry (insertEntry demoGridDoc (.cons entryOne .nil)).1
        (.cons entryTwo .nil)).1 = some [entryTwo, entryOne] := by
  have h := insertEntry_prepends_first (insertEntry demoGridDoc (.cons entryOne .nil)).1
    (.cons entryTwo .nil) "div" [("class", "grid md:grid-cols-3 gap-10")]
    (.cons entryOne .nil) (by decide) (by decide)
  simpa [DomForest.toList] using h.2

/-- C2 fails on the code (`code_bug` record): with a base document missing
the content-container signature, every selector of `renderPost` mutates an
empty selection, no error of any kind is raised, the post file is still
written, and the written document still lacks the content container — the
run even completes with an empty error log.  The spec's
`TemplateStructureError` contract is not implemented. -/
theorem renderPost_missing_container_no_error :
    findFirstN matchesContentSection demoNoSectionTemplate = none
    ∧ (run demoEnvNoSection).postWritten.isSome = true
    ∧ (run demoEnvNoSection).fatal = none
    ∧ (run demoEnvNoSection).errorsLogged = []
    ∧ (run demoEnvNoSection).postWritten.map (fun pr => sectionChildrenOf pr.2) = some none := by
  refine ⟨by decide, by decide, by decide, by decide, by decide⟩

/-- C1 (amended): after `renderPost` mutates the post document, the content
container's children are, in order, the preserved image node, the preserved
heading node, the top-level nodes of the synthesized body markup and the
trailing date/byline paragraph (the final byline write is mapped over them);
that is `n + 3` children where `n` is the number of top-level nodes of the
body markup — 4 only when the body markup parses to a single top-level node,
not regardless of its size. -/
theorem renderPost_container_children (doc : DomNode) (title : String) (body : DomForest)
    (img date : String) (st : String) (sa : List (String × String)) (scs : DomForest)
    (hi mt : DomNode)
    (hsec : findFirstN matchesContentSection (preContentStages title img doc)
      = some (.elem st sa scs))
    (hhi : findFirstF (matchesTag "img") scs = some hi)
    (hmt : findFirstF (matchesTag "h2") scs = some mt) :
    sectionChildrenOf (renderPost doc title body img date)
      = some ((mapForest (setTextAllN matchesDatePara (bylineText date))
          (.cons hi (.cons mt (body.append (.cons (dateParaNode date) .nil))))).toList)
    ∧ (sectionChildrenOf (renderPost doc title body img date)).map List.length
      = some (body.toList.length + 3) := by
  have hmain : sectionChildrenOf (renderPost doc title body img date)
      = some ((mapForest (setTextAllN matchesDatePara (bylineText date))
          (.cons hi (.cons mt (body.append (.cons (dateParaNode date) .nil))))).toList) := by
    unfold renderPost contentSectionStage
    rw [hsec]
    simp only [Option.some_bind]
    rw [show childrenForest (DomNode.elem st sa scs) = scs from rfl]
    rw [hhi, hmt]
    unfold sectionChildrenOf
    rw [findFirstN_replace matchesContentSection _ (preContentStages title img doc), hsec]
    simp only [Option.map_some']
    rw [show ∀ w : DomForest, setKidsFn w (DomNode.elem st sa scs) = DomNode.elem st sa w
        from fun w => rfl]
    rw [show ∀ w : DomForest, childrenForest (DomNode.elem st sa w) = w from fun w => rfl]
    simp [optForest, DomForest.append]
  refine ⟨hmain, ?_⟩
  rw [hmain]
  simp only [Option.map_some', toList_mapForest, DomForest.toList, toList_append,
    List.map_cons, List.length_cons, List.length_map, List.length_append,
    List.length_cons, List.length_nil]
  try omega

/-- Witness for C1 at the demonstration template with a two-paragraph body
markup: the mutated container has 2 + 3 = 5 children. -/
theorem renderPost_container_children_witness :
    (sectionChildrenOf (renderPost demoTemplate "T" twoParaBody "img.jpg" "Mar 01, 2025")).map
      List.length = some (twoParaBody.toList.length + 3) :=
  (renderPost_container_children demoTemplate "T" twoParaBody "img.jpg" "Mar 01, 2025"
    "section" demoSectionAttrs
    (.cons (.elem "img" [("alt", "AI Integration Blog"), ("src", "./img.jpg")] .nil)
      (.cons (.elem "h2" [] (.cons (.text "T") .nil))
        (.cons (.elem "p" [("class", "text-gray-700 mb-4")] (.cons (.text "old body") .nil))
          (.cons (.elem "p" [("class", "text-gray-400 text-sm mb-6")]
              (.cons (.text "Jan 01, 2020") .nil))
            .nil))))
    (.elem "img" [("alt", "AI Integration Blog"), ("src", "./img.jpg")] .nil)
    (.elem "h2" [] (.cons (.text "T") .nil))
    (by decide) (by decide) (by decide)).2

/-- Counterexample for C1 as stated: a body markup of two top-level
paragraphs leaves the content container with 5 children, not 4 — the child
count depends on the size of the body markup. -/
theorem renderPost_four_children_cex :
    (sectionChildrenOf (renderPost demoTemplate "T" twoParaBody "img.jpg" "Mar 01, 2025")).map
        List.length = some 5
    ∧ (sectionChildrenOf (renderPost demoTemplate "T" twoParaBody "img.jpg" "Mar 01, 2025")).map
        List.length ≠ some 4 := by
  refine ⟨by decide, by decide⟩
